import Mathlib

/-!
Shallow embedding of the blink-detection core of `src/app.py` (an eye-blink
health monitor).  Wall-clock times, landmark distances and the smoothed ratio
are modelled as rationals (the Python floats are exact on all inputs of
interest); Python's `int()` truncation is modelled explicitly.  The camera,
the landmark detector, the GUI and the Firestore client are external
collaborators: the embedding takes their outputs (distances, timestamps, the
success or failure of a cloud write) as inputs.
-/

namespace BlinkApp

/-- Optometry constant from `app.py` line 65: minimum healthy blinks/minute. -/
def HEALTHY_BLINK_RATE_MIN : ℚ := 12

/-- Optometry constant from `app.py` line 66: maximum healthy blinks/minute. -/
def HEALTHY_BLINK_RATE_MAX : ℚ := 20

/-- Optometry constant from `app.py` line 67: optimal blinks/minute. -/
def OPTIMAL_BLINK_RATE : ℤ := 16

/-- Python's `int()` applied to a float: truncation toward zero. -/
def pyInt (q : ℚ) : ℤ := if 0 ≤ q then ⌊q⌋ else ⌈q⌉

/-- `getBlinkHealthStatus` (`app.py` lines 75-82): health label and BGR colour
for a blink rate. -/
def getBlinkHealthStatus (blinksPerMinute : ℚ) : String × (ℕ × ℕ × ℕ) :=
  if blinksPerMinute < HEALTHY_BLINK_RATE_MIN then
    ("TOO LOW - Increase blinking!", (0, 0, 255))
  else if blinksPerMinute > HEALTHY_BLINK_RATE_MAX then
    ("TOO HIGH - Relax your eyes", (0, 165, 255))
  else
    ("HEALTHY RATE - Keep it up!", (0, 255, 0))

/-- The spec's abstract health bands. -/
inductive HealthBand where
  | TOO_LOW
  | HEALTHY
  | TOO_HIGH
deriving DecidableEq, Repr

/-- Spec-side classification rule, written from the spec's words
(`rate < 12 → TOO_LOW`, `rate > 20 → TOO_HIGH`, else `HEALTHY`), for
comparison against the source's `getBlinkHealthStatus`. -/
def classifySpec (rate : ℚ) : HealthBand :=
  if rate < 12 then .TOO_LOW else if rate > 20 then .TOO_HIGH else .HEALTHY

/-- The source string displayed for each abstract health band. -/
def bandLabel : HealthBand → String
  | .TOO_LOW => "TOO LOW - Increase blinking!"
  | .TOO_HIGH => "TOO HIGH - Relax your eyes"
  | .HEALTHY => "HEALTHY RATE - Keep it up!"

/-- `ratio = int((lenghtVer/lenghtHor) * 100)` (`app.py` line 186).  The two
arguments are the Euclidean distances returned by the external
`detector.findDistance` calls on lines 180-181 (eyelid pair, corner pair). -/
def ratio (lenghtVer lenghtHor : ℚ) : ℤ :=
  pyInt (lenghtVer / lenghtHor * 100)

/-- The trailing-window update (`app.py` lines 187-190): append the new ratio,
then pop the front element once when the length exceeds 3. -/
def windowAppend (r : ℤ) (l : List ℤ) : List ℤ :=
  let l2 := l ++ [r]
  if l2.length > 3 then l2.drop 1 else l2

/-- `ratioAvg = sum(ratioList) / len(ratioList)` (`app.py` line 191). -/
def windowAvg (l : List ℤ) : ℚ :=
  (l.sum : ℚ) / (l.length : ℚ)

/-- The mutable in-memory session state of the frame loop: `lastMinuteCheck`
(line 71), `currentMinuteBlinks` (line 73), `ratioList` (line 127),
`blinkCounter` (line 128) and the debounce counter `counter` (line 129). -/
structure LoopState where
  lastMinuteCheck : ℚ
  currentMinuteBlinks : ℕ
  blinkCounter : ℕ
  counter : ℕ
  ratioList : List ℤ
deriving DecidableEq, Repr

/-- The state as initialised on `app.py` lines 70-73 and 127-129:
`lastMinuteCheck` is the session start time, all counters zero, empty
ratio window. -/
def initState (t0 : ℚ) : LoopState :=
  { lastMinuteCheck := t0
    currentMinuteBlinks := 0
    blinkCounter := 0
    counter := 0
    ratioList := [] }

/-- The threshold-and-debounce step (`app.py` lines 193-203) applied to the
smoothed ratio `ratioAvg` of the current face frame.  Note the two `if`
statements run in sequence within one frame: a frame that registers a blink
sets `counter = 1` and then immediately increments it to 2. -/
def blinkStep (ratioAvg : ℚ) (s : LoopState) : LoopState :=
  let s1 :=
    if ratioAvg < 35 ∧ s.counter = 0 then
      { s with blinkCounter := s.blinkCounter + 1
               currentMinuteBlinks := s.currentMinuteBlinks + 1
               counter := 1 }
    else s
  if s1.counter ≠ 0 then
    if s1.counter + 1 > 10 then { s1 with counter := 0 }
    else { s1 with counter := s1.counter + 1 }
  else s1

/-- Iterate `blinkStep` over a sequence of smoothed-ratio face-frame inputs. -/
def blinkRun (inputs : List ℚ) (s : LoopState) : LoopState :=
  inputs.foldl (fun t r => blinkStep r t) s

/-- `round(x, 2)`: Python's round-to-2-decimals used for
`sessionDurationMinutes` (`app.py` line 97). -/
def round2 (q : ℚ) : ℚ := (round (q * 100) : ℚ) / 100

/-- The outbound document built on `app.py` lines 92-103 (the wall-clock
`createdAt`/`updatedAt`/`timestamp` strings come from the external clock and
carry no core data, so they are not modelled). -/
structure BlinkRecord where
  userName : String
  blinksPerMinute : ℕ
  healthStatus : String
  totalBlinks : ℕ
  sessionDurationMinutes : ℚ
  optimalRate : ℤ
  recordType : String
deriving DecidableEq, Repr

/-- Construct the document of `app.py` lines 92-103 from the values the frame
loop passes to `saveBlinkDataToFirebase`. -/
def mkBlinkRecord (userName : String) (blinksPerMinute : ℕ) (status : String)
    (totalBlinks : ℕ) (sessionDuration : ℚ) : BlinkRecord :=
  { userName := userName
    blinksPerMinute := blinksPerMinute
    healthStatus := status
    totalBlinks := totalBlinks
    sessionDurationMinutes := round2 (sessionDuration / 60)
    optimalRate := OPTIMAL_BLINK_RATE
    recordType := "blink_monitoring" }

/-- `saveBlinkDataToFirebase` (`app.py` lines 84-116).  `dbConnected` models
`db is not None`; `addResult` models the outcome of the external
`db.collection('blink_monitoring').add(...)` call (`.ok docId` when the write
succeeds, `.error e` when it raises).  The `try/except` absorbs the raise and
returns `False`; the function touches no session state. -/
def saveBlinkDataToFirebase (dbConnected : Bool)
    (addResult : Except String String) (_record : BlinkRecord) : Bool :=
  if dbConnected = false then false
  else
    match addResult with
    | .ok _ => true
    | .error _ => false

/-- The minute-boundary check (`app.py` lines 148-165), run every frame before
the face branch: when `currentTime - lastMinuteCheck >= 60`, classify the
minute-bucket count, hand a record to the persistence collaborator, and reset
the bucket.  Returns the new state and, when the branch fired, the record
together with the save call's boolean result. -/
def minuteStep (userName : String) (sessionStartTime : ℚ) (dbConnected : Bool)
    (addResult : Except String String) (currentTime : ℚ) (s : LoopState) :
    LoopState × Option (BlinkRecord × Bool) :=
  if currentTime - s.lastMinuteCheck ≥ 60 then
    let sessionDuration := currentTime - sessionStartTime
    let blinksPerMinute := s.currentMinuteBlinks
    let healthStatus := (getBlinkHealthStatus (blinksPerMinute : ℚ)).1
    let record := mkBlinkRecord userName blinksPerMinute healthStatus
      s.blinkCounter sessionDuration
    let saved := saveBlinkDataToFirebase dbConnected addResult record
    ({ s with lastMinuteCheck := currentTime, currentMinuteBlinks := 0 },
      some (record, saved))
  else (s, none)

/-- The live-rate estimate (`app.py` lines 206-210): `int()`-truncated
extrapolation, with a half-weighted conservative branch before 30 seconds. -/
def estimatedBlinksPerMinute (blinkCounter : ℕ) (sessionDuration : ℚ) : ℤ :=
  if sessionDuration ≥ 30 then
    pyInt ((blinkCounter : ℚ) / (sessionDuration / 60))
  else
    pyInt (((blinkCounter : ℚ) / max (sessionDuration / 60) (1/2)) * (1/2))

/-- The face branch of the frame loop (`app.py` lines 180-211): compute the
ratio from the two landmark distances, update the trailing window, smooth,
run the threshold-and-debounce step, and compute the displayed live-rate
estimate and its label. -/
def faceStep (sessionStartTime currentTime : ℚ) (lenghtVer lenghtHor : ℚ)
    (s : LoopState) : LoopState × ℤ × String :=
  let r := ratio lenghtVer lenghtHor
  let newList := windowAppend r s.ratioList
  let ratioAvg := windowAvg newList
  let s1 := blinkStep ratioAvg { s with ratioList := newList }
  let sessionDuration := currentTime - sessionStartTime
  let est := estimatedBlinksPerMinute s1.blinkCounter sessionDuration
  (s1, est, (getBlinkHealthStatus (est : ℚ)).1)

/-- Per-frame input from the collaborators: the wall-clock time, the two
landmark distances when a face is detected (`none` when no face), and the
outcome an attempted cloud write would have this frame. -/
structure FrameInput where
  currentTime : ℚ
  face : Option (ℚ × ℚ)
  addResult : Except String String

/-- Per-frame output: the updated state, the record handed to persistence (if
the minute boundary fired) with the save result, and the displayed live-rate
estimate (when a face was visible). -/
structure FrameOutput where
  state : LoopState
  record : Option (BlinkRecord × Bool)
  estimate : Option ℤ

/-- One iteration of the frame loop body (`app.py` lines 148-244) at the level
of the core state: the minute-boundary check runs unconditionally, then the
face branch (ratio, window, debounce, estimate) runs only when a face is
detected. -/
def frameUpdate (userName : String) (sessionStartTime : ℚ) (dbConnected : Bool)
    (input : FrameInput) (s : LoopState) : FrameOutput :=
  let p := minuteStep userName sessionStartTime dbConnected input.addResult
    input.currentTime s
  match input.face with
  | none => { state := p.1, record := p.2, estimate := none }
  | some (v, h) =>
    let q := faceStep sessionStartTime input.currentTime v h p.1
    { state := q.1, record := p.2, estimate := some q.2.1 }

/-- Run the frame loop over a list of frame inputs. -/
def runFrames (userName : String) (sessionStartTime : ℚ) (dbConnected : Bool)
    (trace : List FrameInput) (s : LoopState) : LoopState :=
  trace.foldl (fun t i => (frameUpdate userName sessionStartTime dbConnected i t).state) s

/-- A convenient concrete state for counterexamples: all counters zero, empty
window, bucket anchored at time 0. -/
def state0 : LoopState := initState 0

end BlinkApp

namespace BlinkApp

/-- A blink frame (`counter == 0`, smoothed ratio below 35) runs both `if`
statements of lines 193-203: the blink branch sets `counter = 1` and the
refractory branch immediately increments it to 2. -/
theorem blinkStep_blink (r : ℚ) (s : LoopState) (h0 : s.counter = 0) (hr : r < 35) :
    blinkStep r s = { s with blinkCounter := s.blinkCounter + 1,
                             currentMinuteBlinks := s.currentMinuteBlinks + 1,
                             counter := 2 } := by
  simp [blinkStep, h0, hr]

/-- A face frame entered with a nonzero debounce counter registers no blink
and only advances (or resets) the counter. -/
theorem blinkStep_refractory (r : ℚ) (s : LoopState) (h : s.counter ≠ 0) :
    blinkStep r s =
      (if s.counter + 1 > 10 then { s with counter := 0 }
       else { s with counter := s.counter + 1 }) := by
  simp [blinkStep, h]

/-- The debounce counter never exceeds 10 at the end of a face frame. -/
theorem blinkStep_counter_le (r : ℚ) (s : LoopState) :
    (blinkStep r s).counter ≤ 10 := by
  by_cases h0 : s.counter = 0
  · by_cases hr : r < 35
    · rw [blinkStep_blink r s h0 hr]
      simp
    · simp [blinkStep, h0, hr]
  · rw [blinkStep_refractory r s h0]
    split
    · simp
    · simp
      omega

theorem blinkRun_nil (s : LoopState) : blinkRun [] s = s := rfl

theorem blinkRun_cons (r : ℚ) (inputs : List ℚ) (s : LoopState) :
    blinkRun (r :: inputs) s = blinkRun inputs (blinkStep r s) := rfl

/-- While the debounce counter is nonzero, a run of face frames changes no
blink count; the counter advances by one per frame until it passes 10 and
resets to 0. -/
theorem blinkRun_refractory : ∀ (inputs : List ℚ) (s : LoopState),
    1 ≤ s.counter → s.counter ≤ 10 → s.counter + inputs.length ≤ 11 →
    (blinkRun inputs s).blinkCounter = s.blinkCounter ∧
    (blinkRun inputs s).currentMinuteBlinks = s.currentMinuteBlinks ∧
    (blinkRun inputs s).counter =
      (if s.counter + inputs.length ≤ 10 then s.counter + inputs.length else 0)
  | [], s, h1, h2, _ => by
    refine ⟨rfl, rfl, ?_⟩
    simp only [blinkRun_nil, List.length_nil, Nat.add_zero, if_pos h2]
  | r :: rest, s, h1, h2, h3 => by
    rw [blinkRun_cons]
    by_cases hc : s.counter + 1 > 10
    · have hrest : rest = [] := by
        have := h3
        simp only [List.length_cons] at this
        have : rest.length = 0 := by omega
        exact List.length_eq_zero.mp this
      subst hrest
      rw [blinkStep_refractory r s (by omega), if_pos hc]
      refine ⟨rfl, rfl, ?_⟩
      simp only [blinkRun_nil, List.length_cons, List.length_nil]
      split
      · omega
      · simp
    · rw [blinkStep_refractory r s (by omega), if_neg hc]
      have ih := blinkRun_refractory rest { s with counter := s.counter + 1 }
        (by show 1 ≤ s.counter + 1; omega)
        (by show s.counter + 1 ≤ 10; omega)
        (by show s.counter + 1 + rest.length ≤ 11
            simp only [List.length_cons] at h3; omega)
      refine ⟨ih.1, ih.2.1, ?_⟩
      rw [ih.2.2]
      simp only [List.length_cons]
      split
      · split
        · omega
        · omega
      · split
        · omega
        · rfl

/-- `blinkStep` preserves `currentMinuteBlinks ≤ blinkCounter` (a blink frame
increments both, any other frame touches neither). -/
theorem blinkStep_cmb_le (r : ℚ) (s : LoopState)
    (h : s.currentMinuteBlinks ≤ s.blinkCounter) :
    (blinkStep r s).currentMinuteBlinks ≤ (blinkStep r s).blinkCounter := by
  by_cases h0 : s.counter = 0
  · by_cases hr : r < 35
    · rw [blinkStep_blink r s h0 hr]
      simp
      omega
    · simp [blinkStep, h0, hr]
      exact h
  · rw [blinkStep_refractory r s h0]
    split
    · simpa using h
    · simpa using h

/-- The state component of the minute-boundary check: reset the bucket when
60 seconds have elapsed, otherwise no change.  In particular it does not
depend on the persistence collaborator's parameters. -/
theorem minuteStep_state (u : String) (sst : ℚ) (db : Bool)
    (a : Except String String) (now : ℚ) (s : LoopState) :
    (minuteStep u sst db a now s).1 =
      (if 60 ≤ now - s.lastMinuteCheck
       then { s with lastMinuteCheck := now, currentMinuteBlinks := 0 }
       else s) := by
  by_cases hx : 60 ≤ now - s.lastMinuteCheck <;> simp [minuteStep, hx]

/-- Unfolding of the face branch's state component. -/
theorem faceStep_state (sst now v h : ℚ) (s : LoopState) :
    (faceStep sst now v h s).1 =
      blinkStep (windowAvg (windowAppend (ratio v h) s.ratioList))
        { s with ratioList := windowAppend (ratio v h) s.ratioList } := rfl

/-- A no-face frame only runs the minute-boundary check. -/
theorem frameUpdate_state_none (u : String) (sst : ℚ) (db : Bool)
    (t : ℚ) (a : Except String String) (s : LoopState) :
    (frameUpdate u sst db ⟨t, none, a⟩ s).state =
      (minuteStep u sst db a t s).1 := rfl

/-- A face frame runs the minute-boundary check and then the face branch. -/
theorem frameUpdate_state_some (u : String) (sst : ℚ) (db : Bool)
    (t v h : ℚ) (a : Except String String) (s : LoopState) :
    (frameUpdate u sst db ⟨t, some (v, h), a⟩ s).state =
      (faceStep sst t v h (minuteStep u sst db a t s).1).1 := rfl

/-- `frameUpdate` preserves `currentMinuteBlinks ≤ blinkCounter`. -/
theorem frameUpdate_cmb_le (u : String) (sst : ℚ) (db : Bool)
    (i : FrameInput) (s : LoopState)
    (h : s.currentMinuteBlinks ≤ s.blinkCounter) :
    (frameUpdate u sst db i s).state.currentMinuteBlinks ≤
    (frameUpdate u sst db i s).state.blinkCounter := by
  have hmid : (minuteStep u sst db i.addResult i.currentTime s).1.currentMinuteBlinks ≤
      (minuteStep u sst db i.addResult i.currentTime s).1.blinkCounter := by
    rw [minuteStep_state]
    split
    · simp
    · exact h
  rcases hface : i.face with _ | ⟨v, hh⟩
  · have hi : i = ⟨i.currentTime, none, i.addResult⟩ := by
      cases i; simp_all
    rw [hi, frameUpdate_state_none]
    exact hmid
  · have hi : i = ⟨i.currentTime, some (v, hh), i.addResult⟩ := by
      cases i; simp_all
    rw [hi, frameUpdate_state_some, faceStep_state]
    apply blinkStep_cmb_le
    simpa using hmid

end BlinkApp

namespace BlinkApp

/-- C1 (corrected): a smoothed ratio below 35 arriving while the debounce
counter is 0 registers exactly one blink (total and current-minute counts each
increase by 1) and enters Refractory (counter in 1..10); further sub-35
smoothed inputs register no additional blink on the next 9 face frames.  The
original claim said "the next 10 face frames": on the 10th subsequent face
frame the counter is already back to 0 and a sub-35 input registers a new
blink (see the counterexample). -/
theorem C1_blink_refractory (s : LoopState) (r : ℚ)
    (h0 : s.counter = 0) (hr : r < 35) :
    (blinkStep r s).blinkCounter = s.blinkCounter + 1 ∧
    (blinkStep r s).currentMinuteBlinks = s.currentMinuteBlinks + 1 ∧
    1 ≤ (blinkStep r s).counter ∧ (blinkStep r s).counter ≤ 10 ∧
    ∀ inputs : List ℚ, inputs.length ≤ 9 → (∀ x ∈ inputs, x < 35) →
      (blinkRun inputs (blinkStep r s)).blinkCounter = s.blinkCounter + 1 ∧
      (blinkRun inputs (blinkStep r s)).currentMinuteBlinks = s.currentMinuteBlinks + 1 := by
  have hb := blinkStep_blink r s h0 hr
  have hc : (blinkStep r s).counter = 2 := by rw [hb]
  have hbc : (blinkStep r s).blinkCounter = s.blinkCounter + 1 := by rw [hb]
  have hmb : (blinkStep r s).currentMinuteBlinks = s.currentMinuteBlinks + 1 := by rw [hb]
  refine ⟨hbc, hmb, by omega, by omega, ?_⟩
  intro inputs hlen _
  have h := blinkRun_refractory inputs (blinkStep r s)
    (by omega) (by omega) (by omega)
  exact ⟨by rw [h.1, hbc], by rw [h.2.1, hmb]⟩

/-- C1 counterexample: from the start state a sub-35 input (20) registers a
blink, and a sequence of 10 further sub-35 inputs on the next 10 face frames
registers a second blink — contradicting "no additional blink is registered
on the next 10 face frames". -/
theorem C1_counterexample :
    (blinkStep 20 state0).blinkCounter = 1 ∧
    (blinkRun [20, 20, 20, 20, 20, 20, 20, 20, 20, 20]
      (blinkStep 20 state0)).blinkCounter = 2 :=
  ⟨by decide, by decide⟩

/-- C1 witness: the amended theorem evaluated at the start state with input 20
and three further sub-35 frames. -/
theorem C1_witness :
    (blinkStep 20 state0).blinkCounter = 1 ∧
    (blinkRun [20, 20, 20] (blinkStep 20 state0)).blinkCounter = 1 := by
  have h := C1_blink_refractory state0 20 rfl (by norm_num)
  have h2 := h.2.2.2.2 [20, 20, 20] (by norm_num)
    (by intro x hx; simp at hx; subst hx; norm_num)
  exact ⟨h.1, h2.1⟩

/-- C2 (corrected): the debounce counter stays in [0,10] at every frame
boundary of any run from the initial state (it is a natural number, so the
lower bound holds by type); after a blink enters Refractory the counter
returns to exactly 0 at the end of the 9th subsequent face frame — not the
11th as originally claimed — and not earlier. -/
theorem C2_debounce :
    (∀ (u : String) (sst t0 : ℚ) (db : Bool) (trace : List FrameInput),
      (runFrames u sst db trace (initState t0)).counter ≤ 10) ∧
    (∀ (s : LoopState) (r : ℚ), s.counter = 0 → r < 35 →
      ∀ inputs : List ℚ, inputs.length = 9 →
        (blinkRun inputs (blinkStep r s)).counter = 0 ∧
        ∀ k : ℕ, k < 9 → (blinkRun (inputs.take k) (blinkStep r s)).counter ≠ 0) := by
  constructor
  · intro u sst t0 db trace
    have aux : ∀ (tr : List FrameInput) (s : LoopState), s.counter ≤ 10 →
        (runFrames u sst db tr s).counter ≤ 10 := by
      intro tr
      induction tr with
      | nil => intro s hs; exact hs
      | cons i rest ih =>
        intro s hs
        show (runFrames u sst db rest (frameUpdate u sst db i s).state).counter ≤ 10
        apply ih
        rcases hface : i.face with _ | ⟨v, h⟩
        · have : i = ⟨i.currentTime, none, i.addResult⟩ := by
            cases i; simp_all
          rw [this, frameUpdate_state_none, minuteStep_state]
          split <;> simpa using hs
        · have : i = ⟨i.currentTime, some (v, h), i.addResult⟩ := by
            cases i; simp_all
          rw [this, frameUpdate_state_some, faceStep_state]
          exact blinkStep_counter_le _ _
    exact aux trace (initState t0) (by show (0:ℕ) ≤ 10; omega)
  · intro s r h0 hr inputs hlen
    have hc : (blinkStep r s).counter = 2 := by rw [blinkStep_blink r s h0 hr]
    have h1 : 1 ≤ (blinkStep r s).counter := by omega
    have h2 : (blinkStep r s).counter ≤ 10 := by omega
    constructor
    · have h := blinkRun_refractory inputs (blinkStep r s) h1 h2 (by omega)
      rw [h.2.2, hc, hlen]
      norm_num
    · intro k hk
      have hlt : (inputs.take k).length = k := by
        simp [List.length_take]
        omega
      have h := blinkRun_refractory (inputs.take k) (blinkStep r s) h1 h2
        (by omega)
      rw [h.2.2, hc, hlt, if_pos (by omega)]
      omega

/-- C2 counterexample: after the blink frame the counter is 10 at the end of
the 8th subsequent face frame and already 0 at the end of the 9th — it does
not return to 0 on the 11th subsequent frame. -/
theorem C2_counterexample :
    (blinkRun [20, 20, 20, 20, 20, 20, 20, 20]
      (blinkStep 20 state0)).counter = 10 ∧
    (blinkRun [20, 20, 20, 20, 20, 20, 20, 20, 20]
      (blinkStep 20 state0)).counter = 0 :=
  ⟨by decide, by decide⟩

/-- C2 witness: the amended theorem evaluated on the empty trace and on a
concrete 9-frame refractory run from the start state. -/
theorem C2_witness :
    (runFrames "u" 0 false [] (initState 0)).counter ≤ 10 ∧
    (blinkRun [20, 20, 20, 20, 20, 20, 20, 20, 20]
      (blinkStep 20 state0)).counter = 0 :=
  ⟨C2_debounce.1 "u" 0 0 false [],
   (C2_debounce.2 state0 20 rfl (by norm_num)
     [20, 20, 20, 20, 20, 20, 20, 20, 20] (by decide)).1⟩

/-- C3 (confirmed): at every per-frame update the minute-bucket reset fires
iff `now - lastMinuteCheck >= 60`; when it fires, the bucket count is
classified, a record (with the classification, the bucket count as the rate,
the total count and the session duration) is handed to persistence, and the
post-reset state has `currentMinuteBlinks = 0` and `lastMinuteCheck = now`;
the check runs on every frame regardless of whether a face is visible. -/
theorem C3_minute_boundary (u : String) (sst : ℚ) (db : Bool)
    (a : Except String String) (now : ℚ) (s : LoopState) :
    ((minuteStep u sst db a now s).2.isSome ↔ 60 ≤ now - s.lastMinuteCheck) ∧
    (60 ≤ now - s.lastMinuteCheck →
      (minuteStep u sst db a now s).1.currentMinuteBlinks = 0 ∧
      (minuteStep u sst db a now s).1.lastMinuteCheck = now ∧
      (minuteStep u sst db a now s).2 =
        some (mkBlinkRecord u s.currentMinuteBlinks
            ((getBlinkHealthStatus (s.currentMinuteBlinks : ℚ)).1)
            s.blinkCounter (now - sst),
          saveBlinkDataToFirebase db a
            (mkBlinkRecord u s.currentMinuteBlinks
              ((getBlinkHealthStatus (s.currentMinuteBlinks : ℚ)).1)
              s.blinkCounter (now - sst)))) ∧
    (¬ 60 ≤ now - s.lastMinuteCheck →
      (minuteStep u sst db a now s).1 = s ∧
      (minuteStep u sst db a now s).2 = none) ∧
    (∀ face, (frameUpdate u sst db ⟨now, face, a⟩ s).record =
      (minuteStep u sst db a now s).2) := by
  by_cases hx : 60 ≤ now - s.lastMinuteCheck
  · refine ⟨?_, fun _ => ⟨?_, ?_, ?_⟩, fun hn => absurd hx hn, ?_⟩
    · simp [minuteStep, ge_iff_le, hx]
    · simp [minuteStep, ge_iff_le, hx]
    · simp [minuteStep, ge_iff_le, hx]
    · simp [minuteStep, ge_iff_le, hx]
    · intro face
      rcases face with _ | ⟨v, h⟩ <;> rfl
  · refine ⟨?_, fun hcon => absurd hcon hx, fun _ => ⟨?_, ?_⟩, ?_⟩
    · simp [minuteStep, ge_iff_le, hx]
    · simp [minuteStep, ge_iff_le, hx]
    · simp [minuteStep, ge_iff_le, hx]
    · intro face
      rcases face with _ | ⟨v, h⟩ <;> rfl

/-- C3 witness: the theorem evaluated at the start state at `now = 60` (the
boundary fires and resets the bucket) and at `now = 20`. -/
theorem C3_witness :
    (minuteStep "u" 0 false (Except.ok "") 60 state0).1.currentMinuteBlinks = 0 ∧
    (minuteStep "u" 0 false (Except.ok "") 60 state0).1.lastMinuteCheck = 60 ∧
    ((minuteStep "u" 0 false (Except.ok "") 20 state0).2.isSome ↔
      (60 : ℚ) ≤ 20 - state0.lastMinuteCheck) := by
  have h := C3_minute_boundary "u" 0 false (Except.ok "") 60 state0
  have h2 := h.2.1 (by norm_num [state0, initState])
  exact ⟨h2.1, h2.2.1, (C3_minute_boundary "u" 0 false (Except.ok "") 20 state0).1⟩

/-- C4 (corrected): the per-frame ratio is the integer **truncation** (floor,
for the nonnegative distances at hand) of `verticalDistance /
horizontalDistance * 100`, because the source applies Python's `int()`; it is
not `round(...)` as claimed (see the counterexample at distances 2 and 3). -/
theorem C4_ratio_trunc (v h : ℚ) (hv : 0 ≤ v) (hh : 0 < h) :
    ratio v h = ⌊v / h * 100⌋ := by
  have hq : (0:ℚ) ≤ v / h * 100 := by positivity
  simp [ratio, pyInt, hq]

/-- C4 counterexample: eyelid distance 2 (points (0,0)-(0,2)) and corner
distance 3 (points (0,0)-(3,0)) give `2/3*100 = 66.66...`: the code computes
66, while `round` gives 67. -/
theorem C4_counterexample :
    ratio 2 3 = 66 ∧ round ((2:ℚ) / 3 * 100) = 67 ∧
    ratio 2 3 ≠ round ((2:ℚ) / 3 * 100) := by
  refine ⟨?_, ?_, ?_⟩ <;> norm_num [ratio, pyInt, round_eq, Int.floor_eq_iff]

/-- C4 witness: the amended theorem evaluated at distances 2 and 3. -/
theorem C4_witness : ratio 2 3 = ⌊(2:ℚ) / 3 * 100⌋ :=
  C4_ratio_trunc 2 3 (by norm_num) (by norm_num)

/-- C5 (confirmed): the ratio window is a FIFO of capacity 3 — after an
append the length is at most 3, a full window evicts its oldest entry first —
and the reducer returns the arithmetic mean of the window; inputs
`[50, 50, 20]` yield mean 40, and a 4th input 10 yields window `[50, 20, 10]`
whose mean is `80/3`, i.e. exactly 26.67 after the two-decimal rounding used
for display (`round2`). -/
theorem C5_window :
    (∀ (r : ℤ) (l : List ℤ), l.length ≤ 3 →
      (windowAppend r l).length ≤ 3 ∧
      (l.length = 3 → windowAppend r l = l.drop 1 ++ [r]) ∧
      (l.length < 3 → windowAppend r l = l ++ [r])) ∧
    windowAppend 20 (windowAppend 50 (windowAppend 50 [])) = [50, 50, 20] ∧
    windowAvg [50, 50, 20] = 40 ∧
    windowAppend 10 [50, 50, 20] = [50, 20, 10] ∧
    windowAvg [50, 20, 10] = 80 / 3 ∧
    round2 (80 / 3) = 2667 / 100 := by
  refine ⟨?_, by decide, by norm_num [windowAvg], by decide,
    by norm_num [windowAvg], by norm_num [round2, round_eq, Int.floor_eq_iff]⟩
  intro r l hl
  by_cases h3 : l.length = 3
  · have hgt : (l ++ [r]).length > 3 := by simp [h3]
    refine ⟨?_, fun _ => ?_, fun hlt => absurd h3 (by omega)⟩
    · simp only [windowAppend, if_pos hgt]
      simp only [List.length_drop, List.length_append, List.length_cons,
        List.length_nil]
      omega
    · simp only [windowAppend, if_pos hgt]
      exact List.drop_append_of_le_length (by omega)
  · have hng : ¬ (l ++ [r]).length > 3 := by simp; omega
    refine ⟨?_, fun he => absurd he h3, fun _ => ?_⟩
    · simp only [windowAppend, if_neg hng]
      simp
      omega
    · simp only [windowAppend, if_neg hng]

/-- C5 witness: the window part of the theorem evaluated on the concrete
windows `[50, 50, 20]` (full, evicts 50) and `[50, 50]` (not full). -/
theorem C5_witness :
    (windowAppend 10 [50, 50, 20]).length ≤ 3 ∧
    windowAppend 10 [50, 50, 20] = [50, 20, 10] ∧
    windowAppend 7 [50, 50] = [50, 50, 7] := by
  have h := C5_window.1 10 [50, 50, 20] (by norm_num)
  have h2 := C5_window.1 7 [50, 50] (by norm_num)
  exact ⟨h.1, h.2.1 rfl, h2.2.2 (by norm_num)⟩

/-- C6 (confirmed): classification is a pure function of the rate — below 12
it is TOO_LOW, above 20 TOO_HIGH, otherwise HEALTHY — the source's
`getBlinkHealthStatus` label agrees with the spec's `classifySpec` band at
every rate, the boundary values 11/12/20/21 classify as claimed, and calling
it twice with the same rate yields the same result. -/
theorem C6_classify (rate : ℚ) :
    (getBlinkHealthStatus rate).1 = bandLabel (classifySpec rate) ∧
    (rate < 12 → classifySpec rate = HealthBand.TOO_LOW) ∧
    (rate > 20 → classifySpec rate = HealthBand.TOO_HIGH) ∧
    (12 ≤ rate → rate ≤ 20 → classifySpec rate = HealthBand.HEALTHY) ∧
    getBlinkHealthStatus 11 = ("TOO LOW - Increase blinking!", (0, 0, 255)) ∧
    getBlinkHealthStatus 12 = ("HEALTHY RATE - Keep it up!", (0, 255, 0)) ∧
    getBlinkHealthStatus 20 = ("HEALTHY RATE - Keep it up!", (0, 255, 0)) ∧
    getBlinkHealthStatus 21 = ("TOO HIGH - Relax your eyes", (0, 165, 255)) ∧
    getBlinkHealthStatus rate = getBlinkHealthStatus rate := by
  refine ⟨?_, ?_, ?_, ?_, ?_, ?_, ?_, ?_, rfl⟩
  · by_cases h1 : rate < 12
    · simp [getBlinkHealthStatus, classifySpec, bandLabel,
        HEALTHY_BLINK_RATE_MIN, HEALTHY_BLINK_RATE_MAX, h1]
    · by_cases h2 : rate > 20 <;>
        simp [getBlinkHealthStatus, classifySpec, bandLabel,
          HEALTHY_BLINK_RATE_MIN, HEALTHY_BLINK_RATE_MAX, h1, h2]
  · intro h
    simp [classifySpec, h]
  · intro h
    have h1 : ¬ rate < 12 := by linarith
    simp [classifySpec, h1, h]
  · intro ha hb
    have h1 : ¬ rate < 12 := by linarith
    have h2 : ¬ rate > 20 := by linarith
    simp [classifySpec, h1, h2]
  · norm_num [getBlinkHealthStatus, HEALTHY_BLINK_RATE_MIN, HEALTHY_BLINK_RATE_MAX]
  · norm_num [getBlinkHealthStatus, HEALTHY_BLINK_RATE_MIN, HEALTHY_BLINK_RATE_MAX]
  · norm_num [getBlinkHealthStatus, HEALTHY_BLINK_RATE_MIN, HEALTHY_BLINK_RATE_MAX]
  · norm_num [getBlinkHealthStatus, HEALTHY_BLINK_RATE_MIN, HEALTHY_BLINK_RATE_MAX]

/-- C6 witness: the band implications evaluated at rates 11, 21 and 15. -/
theorem C6_witness :
    classifySpec 11 = HealthBand.TOO_LOW ∧
    classifySpec 21 = HealthBand.TOO_HIGH ∧
    classifySpec 15 = HealthBand.HEALTHY :=
  ⟨(C6_classify 11).2.1 (by norm_num),
   (C6_classify 21).2.2.1 (by norm_num),
   (C6_classify 15).2.2.2.1 (by norm_num) (by norm_num)⟩

/-- C7 (corrected): the displayed live-rate estimate is the integer
**truncation** (Python `int()`, i.e. floor of the nonnegative quotient) of
`blinkCounter / (sessionDuration/60)` for durations of at least 30 seconds,
and of `(blinkCounter / max(sessionDuration/60, 0.5)) * 0.5` for shorter
durations; the claim omitted the truncation (see the counterexample). -/
theorem C7_estimate (b : ℕ) (d : ℚ) :
    (30 ≤ d → estimatedBlinksPerMinute b d = ⌊(b : ℚ) / (d / 60)⌋) ∧
    (d < 30 → estimatedBlinksPerMinute b d =
      ⌊((b : ℚ) / max (d / 60) (1 / 2)) * (1 / 2)⌋) := by
  constructor
  · intro h
    have hge : d ≥ 30 := h
    have h0 : (0:ℚ) ≤ (b : ℚ) / (d / 60) :=
      div_nonneg (Nat.cast_nonneg b) (by linarith)
    unfold estimatedBlinksPerMinute pyInt
    rw [if_pos hge, if_pos h0]
  · intro h
    have hm : (0:ℚ) ≤ max (d / 60) (1 / 2) :=
      le_trans (by norm_num) (le_max_right _ _)
    have h0 : (0:ℚ) ≤ ((b : ℚ) / max (d / 60) (1 / 2)) * (1 / 2) :=
      mul_nonneg (div_nonneg (Nat.cast_nonneg b) hm) (by norm_num)
    have hn : ¬ (d ≥ 30) := not_le.mpr h
    unfold estimatedBlinksPerMinute pyInt
    rw [if_neg hn, if_pos h0]

/-- C7 counterexample: with 1 blink at 36 seconds the code displays
`int(1 / 0.6) = 1`, whereas the claimed formula `blinkCounter /
(sessionDuration/60)` equals `5/3`. -/
theorem C7_counterexample :
    estimatedBlinksPerMinute 1 36 = 1 ∧
    ((estimatedBlinksPerMinute 1 36 : ℤ) : ℚ) ≠ (1 : ℚ) / (36 / 60) := by
  constructor <;> norm_num [estimatedBlinksPerMinute, pyInt, Int.floor_eq_iff]

/-- C7 witness: the amended theorem evaluated at 1 blink / 36 s (long branch)
and 1 blink / 12 s (short branch). -/
theorem C7_witness :
    estimatedBlinksPerMinute 1 36 = ⌊(1 : ℚ) / ((36 : ℚ) / 60)⌋ ∧
    estimatedBlinksPerMinute 1 12 = ⌊((1 : ℚ) / max ((12 : ℚ) / 60) (1 / 2)) * (1 / 2)⌋ := by
  constructor
  · have h := (C7_estimate 1 36).1 (by norm_num)
    simpa using h
  · have h := (C7_estimate 1 12).2 (by norm_num)
    simpa using h

/-- C8 (confirmed): after any sequence of per-frame updates from the initial
state — with or without faces, across minute-bucket resets —
`0 ≤ currentMinuteBlinks ≤ blinkCounter` (the lower bound holds by type, the
counts being naturals). -/
theorem C8_minute_le_total (u : String) (sst t0 : ℚ) (db : Bool)
    (trace : List FrameInput) :
    0 ≤ (runFrames u sst db trace (initState t0)).currentMinuteBlinks ∧
    (runFrames u sst db trace (initState t0)).currentMinuteBlinks ≤
    (runFrames u sst db trace (initState t0)).blinkCounter := by
  refine ⟨Nat.zero_le _, ?_⟩
  have aux : ∀ (tr : List FrameInput) (s : LoopState),
      s.currentMinuteBlinks ≤ s.blinkCounter →
      (runFrames u sst db tr s).currentMinuteBlinks ≤
      (runFrames u sst db tr s).blinkCounter := by
    intro tr
    induction tr with
    | nil => exact fun s hs => hs
    | cons i rest ih =>
      intro s hs
      exact ih _ (frameUpdate_cmb_le u sst db i s hs)
  exact aux trace (initState t0) (by show (0:ℕ) ≤ 0; omega)

/-- C9 (confirmed): the persistence operation is total and fire-and-forget —
with no store configured it returns `false`, a failed write (the collaborator
raising) is absorbed into the return value `false` rather than propagating,
and the frame update's session state (blink counts, timers, ratio window) is
identical whatever the store configuration and write outcome. -/
theorem C9_persistence (u : String) (sst : ℚ) (db db2 : Bool) (t : ℚ)
    (face : Option (ℚ × ℚ)) (a a2 : Except String String)
    (s : LoopState) (rec : BlinkRecord) (e : String) :
    saveBlinkDataToFirebase false a rec = false ∧
    saveBlinkDataToFirebase db (Except.error e) rec = false ∧
    (frameUpdate u sst db ⟨t, face, a⟩ s).state =
      (frameUpdate u sst db2 ⟨t, face, a2⟩ s).state := by
  refine ⟨rfl, by cases db <;> rfl, ?_⟩
  rcases face with _ | ⟨v, h⟩
  · rw [frameUpdate_state_none, frameUpdate_state_none,
      minuteStep_state, minuteStep_state]
  · rw [frameUpdate_state_some, frameUpdate_state_some, faceStep_state,
      faceStep_state, minuteStep_state, minuteStep_state]

/-- C10 (confirmed): at the end of a frame that registers a blink the
debounce counter equals 2 (the refractory branch runs in the same frame,
right after the blink branch set it to 1), so the Refractory period spans
exactly 9 further face frames: the counter is `2 + k` after `k < 9` of them
and 0 after the 9th. -/
theorem C10_refractory_span (s : LoopState) (r : ℚ)
    (h0 : s.counter = 0) (hr : r < 35) :
    (blinkStep r s).counter = 2 ∧
    (∀ inputs : List ℚ, inputs.length = 9 →
      (blinkRun inputs (blinkStep r s)).counter = 0) ∧
    (∀ inputs : List ℚ, inputs.length < 9 →
      (blinkRun inputs (blinkStep r s)).counter = 2 + inputs.length) := by
  have hc : (blinkStep r s).counter = 2 := by rw [blinkStep_blink r s h0 hr]
  have h1 : 1 ≤ (blinkStep r s).counter := by omega
  have h2 : (blinkStep r s).counter ≤ 10 := by omega
  refine ⟨hc, ?_, ?_⟩
  · intro inputs hlen
    have h := blinkRun_refractory inputs (blinkStep r s) h1 h2 (by omega)
    rw [h.2.2, hc, hlen]
    norm_num
  · intro inputs hlen
    have h := blinkRun_refractory inputs (blinkStep r s) h1 h2 (by omega)
    rw [h.2.2, hc, if_pos (by omega)]

/-- C10 witness: the theorem evaluated at the start state with input 20,
checking the counter after the blink frame, after 2 further frames and after
9 further frames. -/
theorem C10_witness :
    (blinkStep 20 state0).counter = 2 ∧
    (blinkRun [20, 20, 20, 20, 20, 20, 20, 20, 20]
      (blinkStep 20 state0)).counter = 0 ∧
    (blinkRun [20, 20] (blinkStep 20 state0)).counter = 2 + 2 := by
  have h := C10_refractory_span state0 20 rfl (by norm_num)
  refine ⟨h.1, h.2.1 _ (by decide), ?_⟩
  have := h.2.2 [20, 20] (by decide)
  simpa using this

end BlinkApp
